import Mathlib

/-!
Shallow embedding of the web scraper backend (`server.js`) and the parts of its
frontend script that the specification covers.

The embedding models:
- JavaScript string primitives used by the code (`includes`, `startsWith`,
  `trim`, truthiness of possibly-undefined strings);
- the WHATWG URL resolver `new URL(rel, base).href` (platform builtin),
  simplified to the reference shapes exercised here;
- the network as an environment `String → FetchSpec` assigning to each URL the
  behaviour of its fetch (response after some delay, rejection after some
  delay, or no answer at all), with the 15-second abort timer of `scrapeUrl`
  folded into `jsFetch`;
- a parsed HTML document (`cheerio.load` result) abstractly, as the data the
  extraction code queries: the list of `article.product_pod` containers and
  the first `h1` element;
- `scrapeUrl`, the `POST /scrape` handler (validation, `Promise.allSettled`
  fan-out, settled-result post-processing), and the frontend routine
  `loadAndDisplayStoredResults` with its localStorage cell.
-/

namespace Webscrapper

/-- Model of JavaScript `String.prototype.includes`: substring test over the
whole string. -/
def strIncludes (s sub : String) : Bool :=
  decide (sub.data <:+: s.data)

/-- Model of JavaScript `String.prototype.startsWith`. -/
def strStartsWith (s p : String) : Bool :=
  p.data.isPrefixOf s.data

/-- Model of JavaScript `String.prototype.trim`: drop leading and trailing
whitespace. -/
def jsTrim (s : String) : String :=
  ⟨((s.data.dropWhile Char.isWhitespace).reverse.dropWhile Char.isWhitespace).reverse⟩

/-- JavaScript truthiness of a string-or-undefined value (as produced by
the cheerio method `.attr(...)`): defined and non-empty. -/
def jsTruthy : Option String → Bool
  | none => false
  | some s => s != ""

/-- An absolute `http`/`https` URL, by its scheme prefix. -/
def isAbsoluteHttp (s : String) : Bool :=
  strStartsWith s "http://" || strStartsWith s "https://"

/-- The `scheme://host` part of an absolute http(s) URL, as characters. -/
def originData (l : List Char) : List Char :=
  if "https://".data.isPrefixOf l then
    "https://".data ++ (l.drop 8).takeWhile (fun c => c ≠ '/')
  else if "http://".data.isPrefixOf l then
    "http://".data ++ (l.drop 7).takeWhile (fun c => c ≠ '/')
  else l

/-- The prefix of a character list up to and including its last `'/'`, or
`none` when it has no `'/'`. -/
def upToLastSlash : List Char → Option (List Char)
  | [] => none
  | c :: cs =>
    match upToLastSlash cs with
    | some p => some (c :: p)
    | none => if c = '/' then some [c] else none

/-- The directory part of an absolute http(s) URL: everything up to and
including the last slash of its path, with a `/` inserted when the path is
empty. -/
def dirData (l : List Char) : List Char :=
  let o := originData l
  match upToLastSlash (l.drop o.length) with
  | some p => o ++ p
  | none => o ++ ['/']

/-- Model of the WHATWG URL resolver `new URL(rel, base).href` (a platform
builtin, external to the repository), simplified to the reference shapes the
scraper exercises: an absolute reference is returned unchanged, a
root-relative reference is resolved against the origin of the base, and any
other reference is resolved against the directory of the base. -/
def resolveUrl (rel base : String) : String :=
  if isAbsoluteHttp rel then rel
  else if strStartsWith rel "/" then ⟨originData base.data ++ rel.data⟩
  else ⟨dirData base.data ++ rel.data⟩

/-- One extracted structured item. The code produces two shapes of record
object: `{title, price, link}` from the books site policy and
`{title, source}` from the generic fallback policy. -/
inductive Record
  | book (title price link : String)
  | generic (title source : String)
deriving DecidableEq

/-- The per-URL outcome object returned by `scrapeUrl`: url with status
success and records, or url with status failed and an error message. -/
inductive ScrapeOutcome
  | success (url : String) (records : List Record)
  | failure (url : String) (error : String)
deriving DecidableEq

/-- The `url` field of an outcome, present in both shapes. -/
def ScrapeOutcome.url : ScrapeOutcome → String
  | .success u _ => u
  | .failure u _ => u

/-- One `article.product_pod` container of a parsed books-site page, as seen
through the selectors the code uses: the `title` attribute of `h3 a`, the
`href` attribute of `h3 a` (each possibly undefined), and the text of
`.product_price .price_color` (empty when the selector matches nothing). -/
structure ProductPod where
  title : Option String
  href : Option String
  price : String
deriving DecidableEq

/-- A parsed HTML document, as seen through the two selector families the
code uses: the `article.product_pod` containers and the text of the first
`h1` element (`none` when the document has no `h1`). -/
structure Doc where
  productPods : List ProductPod
  h1 : Option String
deriving DecidableEq

/-- A thrown JavaScript error value, as observed by the handler: its `name`
and `message`. -/
structure JsError where
  name : String
  message : String
deriving DecidableEq

/-- The rejection value produced when the `AbortController` cancels a fetch. -/
def abortError : JsError :=
  { name := "AbortError", message := "This operation was aborted" }

/-- Behaviour of the network for one URL: a response arriving `ms`
milliseconds after the request (status, status text, parsed body), a
rejection (network/DNS/TLS error) after `ms` milliseconds, or no answer at
all. -/
inductive FetchSpec
  | respondsAfter (ms : Nat) (status : Nat) (statusText : String) (doc : Doc)
  | rejectsAfter (ms : Nat) (e : JsError)
  | never
deriving DecidableEq

/-- The fetch timeout of `scrapeUrl`: `setTimeout(() => controller.abort(), 15000)`. -/
def timeoutMs : Nat := 15000

/-- Model of the awaited fetch under the 15-second abort timer: the
response (or network rejection) is delivered if it arrives before the timer
fires; otherwise the request is aborted and the promise rejects with an
`AbortError`. -/
def jsFetch : FetchSpec → Except JsError (Nat × String × Doc)
  | .respondsAfter ms st stx doc =>
    if ms < timeoutMs then .ok (st, stx, doc) else .error abortError
  | .rejectsAfter ms e =>
    if ms < timeoutMs then .error e else .error abortError
  | .never => .error abortError

/-- Model of `Response.ok`: status in the inclusive range 200–299. -/
def responseOk (status : Nat) : Bool :=
  200 ≤ status && status ≤ 299

/-- The message of the error thrown on a non-ok response:
`` `Failed to fetch ${url}: ${response.status} ${response.statusText}` ``. -/
def httpErrorMessage (url : String) (status : Nat) (statusText : String) : String :=
  "Failed to fetch " ++ url ++ ": " ++ toString status ++ " " ++ statusText

/-- The substring `scrapeUrl` looks for to select the books extraction
policy. -/
def booksHost : String := "books.toscrape.com"

/-- Processing of one `article.product_pod` container by the books branch:
read `title`, `href` and price text, resolve the link when the href is
truthy, and emit a record exactly when `title && price && absoluteLink` is
truthy, trimming title and price. -/
def scrapePod (url : String) (p : ProductPod) : Option Record :=
  let title := p.title
  let relativeLink := p.href
  let price := p.price
  let absoluteLink : Option String :=
    match relativeLink with
    | some r => if r != "" then some (resolveUrl r url) else none
    | none => none
  match title, absoluteLink with
  | some t, some a =>
    if t != "" && price != "" && a != "" then
      some (.book (jsTrim t) (jsTrim price) a)
    else
      none
  | _, _ => none

/-- The books-site extraction policy: one record per well-formed
`article.product_pod` container, in document order. -/
def booksPolicy (url : String) (doc : Doc) : List Record :=
  doc.productPods.filterMap (scrapePod url)

/-- The generic fallback policy: the text of the first `h1`, trimmed; one
record when that is truthy, none otherwise. -/
def genericPolicy (doc : Doc) : List Record :=
  let genericTitle := jsTrim (doc.h1.getD "")
  if genericTitle != "" then [.generic genericTitle "Generic H1 scrape"] else []

/-- The site-specific record scraping logic of `scrapeUrl`: the books policy
when the URL contains `booksHost`, the generic fallback otherwise. -/
def extractRecords (url : String) (doc : Doc) : List Record :=
  if strIncludes url booksHost then booksPolicy url doc else genericPolicy doc

/-- The `try` block of `scrapeUrl`: fetch under the abort timer, throw on a
non-ok status, otherwise parse and extract records. -/
def tryScrapeBody (env : String → FetchSpec) (url : String) :
    Except JsError (List Record) :=
  match jsFetch (env url) with
  | .error e => .error e
  | .ok (status, statusText, doc) =>
    if !(responseOk status) then
      .error { name := "Error", message := httpErrorMessage url status statusText }
    else
      .ok (extractRecords url doc)

/-- The `catch` block of `scrapeUrl`: when the error is named AbortError the
message is the fixed text Request timed out, otherwise the message of the
error itself is used. -/
def catchMessage (e : JsError) : String :=
  if e.name == "AbortError" then "Request timed out" else e.message

/-- Definition of `scrapeUrl`: one outcome per call; the whole body is a single
`try`/`catch`, so every failure becomes a `failure` outcome carrying the
requested URL. -/
def scrapeUrl (env : String → FetchSpec) (url : String) : ScrapeOutcome :=
  match tryScrapeBody env url with
  | .ok records => .success url records
  | .error e => .failure url (catchMessage e)

/-- A settled promise, as reported by `Promise.allSettled`. -/
inductive Settled (α : Type)
  | fulfilled (value : α)
  | rejected (reason : JsError)

/-- Model of the fan-out, one promise per URL, settled together: the body of
`scrapeUrl` is one `try`/`catch` that always returns, so every slot settles
fulfilled, at the position of its URL in the input list. -/
def allSettled (env : String → FetchSpec) (urls : List String) :
    List (Settled ScrapeOutcome) :=
  urls.map (fun url => .fulfilled (scrapeUrl env url))

/-- Post-processing of one settled slot by the handler: a fulfilled slot
contributes its value; a rejected slot is defensively replaced by a
placeholder failure outcome. -/
def processSettled : Settled ScrapeOutcome → ScrapeOutcome
  | .fulfilled v => v
  | .rejected e =>
    .failure "Unknown URL (unexpected error)"
      (if e.message != "" then e.message else
        "An unexpected error occurred during scraping.")

/-- The batch orchestration of the `/scrape` handler: fan out one `scrapeUrl`
per URL, wait for all to settle, post-process each slot. -/
def scrapeAll (env : String → FetchSpec) (urls : List String) : List ScrapeOutcome :=
  (allSettled env urls).map processSettled

/-- The `urls` value of a request body, as the validation observes it:
absent (or otherwise falsy), present but not an array, or an array. -/
inductive BodyUrls
  | absent
  | nonArray
  | array (urls : List String)

/-- The validation message of the `/scrape` handler. -/
def validationError : String :=
  "Please provide an array of URLs in the request body."

/-- The validation test of the handler: the body value is falsy, not an
array, or an empty array. -/
def bodyInvalid : BodyUrls → Bool
  | .absent => true
  | .nonArray => true
  | .array urls => urls.length == 0

/-- The array carried by a request body (empty for non-array shapes, which
the validation rejects before it is read). -/
def bodyArray : BodyUrls → List String
  | .array urls => urls
  | _ => []

/-- A client-error response: HTTP status and error message. -/
structure ErrorResponse where
  status : Nat
  error : String
deriving DecidableEq

/-- The `POST /scrape` handler over an abstract core: reject invalid bodies
with a 400 response before invoking the core, otherwise return the outcomes
the core produced. -/
def handleScrape (core : List String → List ScrapeOutcome) (body : BodyUrls) :
    Except ErrorResponse (List ScrapeOutcome) :=
  if bodyInvalid body then
    .error { status := 400, error := validationError }
  else
    .ok (core (bodyArray body))

/-- The deployed `POST /scrape` endpoint: the handler over `scrapeAll`. -/
def scrapeEndpoint (env : String → FetchSpec) (body : BodyUrls) :
    Except ErrorResponse (List ScrapeOutcome) :=
  handleScrape (scrapeAll env) body

/-- What the results area shows: either rendered outcome items or a static
message paragraph. -/
inductive Display
  | resultsView (results : List ScrapeOutcome)
  | message (html : String)
deriving DecidableEq

/-- The placeholder shown when nothing is stored. -/
def emptyStateHtml : String :=
  "<p>Enter URLs above and click \"Scrape Websites\" to see results. Previously scraped data will be saved here.</p>"

/-- The message shown when stored results fail to parse. -/
def corruptedHtml : String :=
  "<p class=\"error-message\">Could not load previously saved results. They might be corrupted.</p>"

/-- The message `displayResults` shows for an empty result list. -/
def noResultsHtml : String :=
  "<p>No results found or provided.</p>"

/-- The frontend function `displayResults`: a message for an empty list,
otherwise the rendered items. -/
def displayResults (results : List ScrapeOutcome) : Display :=
  if results.length == 0 then .message noResultsHtml else .resultsView results

/-- The frontend function `loadAndDisplayStoredResults` over the localStorage cell
for `scrapedResults` (modelled as `Option String`, with `getItem` returning
null or a string) and `JSON.parse` (a platform builtin, modelled as a parse
function returning `none` when it throws). The code gates on JS truthiness
of the stored value, so a stored empty string takes the else branch: the
placeholder is shown and the cell is left untouched. Only inside the truthy
branch does a parse failure clear the cell (`removeItem`) and show the
corrupted-data message. Returns the new storage content and what is
displayed. -/
def loadAndDisplayStoredResults (parseJson : String → Option (List ScrapeOutcome))
    (storage : Option String) : Option String × Display :=
  if jsTruthy storage then
    match parseJson (storage.getD "") with
    | some results => (storage, displayResults results)
    | none => (none, .message corruptedHtml)
  else (storage, .message emptyStateHtml)

/-- A fetch that the 15-second token aborts: the URL never answers, or its
response or rejection would only arrive once the timer has fired. -/
def timedOut (spec : FetchSpec) : Prop :=
  spec = .never ∨
  (∃ ms st stx doc, spec = .respondsAfter ms st stx doc ∧ timeoutMs ≤ ms) ∨
  (∃ ms e, spec = .rejectsAfter ms e ∧ timeoutMs ≤ ms)

/-- A well-formed product container: title and href attributes present, href
non-empty, and title and price non-empty even after trimming. -/
def wellFormedPod (p : ProductPod) : Prop :=
  ∃ t lnk, p.title = some t ∧ jsTrim t ≠ "" ∧
    p.href = some lnk ∧ lnk ≠ "" ∧ jsTrim p.price ≠ ""

/-- A container missing a required field, as the truthiness check of the
books branch sees it: title undefined or empty, price text empty, or href
undefined or empty. -/
def missingFieldPod (p : ProductPod) : Prop :=
  p.title = none ∨ p.title = some "" ∨ p.price = "" ∨
  p.href = none ∨ p.href = some ""

/-! ### Supporting lemmas -/

theorem isPrefixOf_append (p m : List Char) : p.isPrefixOf (p ++ m) = true := by
  rw [ List.isPrefixOf_iff_prefix]
  exact List.prefix_append p m

theorem originData_append_absolute (l m : List Char)
    (h : isAbsoluteHttp ⟨l⟩ = true) : isAbsoluteHttp ⟨originData l ++ m⟩ = true := by
  unfold isAbsoluteHttp strStartsWith at h ⊢
  rw [Bool.or_eq_true] at h ⊢
  unfold originData
  by_cases hs : "https://".data.isPrefixOf l = true
  · rw [if_pos hs]
    right
    rw [List.append_assoc]
    exact isPrefixOf_append _ _
  · rw [if_neg hs]
    by_cases hh : "http://".data.isPrefixOf l = true
    · rw [if_pos hh]
      left
      rw [List.append_assoc]
      exact isPrefixOf_append _ _
    · cases h with
      | inl h1 => exact absurd h1 hh
      | inr h2 => exact absurd h2 hs

theorem dirData_append_absolute (l m : List Char)
    (h : isAbsoluteHttp ⟨l⟩ = true) : isAbsoluteHttp ⟨dirData l ++ m⟩ = true := by
  unfold dirData
  cases hu : upToLastSlash (l.drop (originData l).length) with
  | some p =>
    simp only [hu]
    rw [List.append_assoc]
    exact originData_append_absolute l _ h
  | none =>
    simp only [hu]
    rw [List.append_assoc]
    exact originData_append_absolute l _ h

theorem resolveUrl_absolute (rel base : String)
    (h : isAbsoluteHttp base = true) : isAbsoluteHttp (resolveUrl rel base) = true := by
  unfold resolveUrl
  by_cases h1 : isAbsoluteHttp rel = true
  · rw [if_pos h1]
    exact h1
  · rw [if_neg h1]
    by_cases h2 : strStartsWith rel "/" = true
    · rw [if_pos h2]
      exact originData_append_absolute base.data rel.data h
    · rw [if_neg h2]
      exact dirData_append_absolute base.data rel.data h

theorem resolveUrl_ne_empty (rel base : String) (h : rel ≠ "") :
    resolveUrl rel base ≠ "" := by
  have hd : rel.data ≠ [] := by
    intro hnil
    exact h (String.ext hnil)
  unfold resolveUrl
  by_cases h1 : isAbsoluteHttp rel = true
  · rw [if_pos h1]
    exact h
  · rw [if_neg h1]
    by_cases h2 : strStartsWith rel "/" = true
    · rw [if_pos h2]
      intro hc
      have hday : originData base.data ++ rel.data = [] := congrArg String.data hc
      exact hd (List.append_eq_nil.1 hday).2
    · rw [if_neg h2]
      intro hc
      have hday : dirData base.data ++ rel.data = [] := congrArg String.data hc
      exact hd (List.append_eq_nil.1 hday).2

theorem strIncludes_middle (a b c : String) : strIncludes (a ++ b ++ c) b = true := by
  unfold strIncludes
  rw [decide_eq_true_eq]
  rw [String.data_append, String.data_append]
  exact List.infix_append _ _ _

theorem scrapeUrl_url_eq (env : String → FetchSpec) (url : String) :
    (scrapeUrl env url).url = url := by
  unfold scrapeUrl
  cases tryScrapeBody env url <;> rfl

theorem scrapeAll_eq_map (env : String → FetchSpec) (urls : List String) :
    scrapeAll env urls = urls.map (scrapeUrl env) := by
  unfold scrapeAll allSettled
  rw [List.map_map]
  rfl

theorem length_filterMap_of_all_some {α β : Type} (f : α → Option β) :
    ∀ l : List α, (∀ a ∈ l, (f a).isSome = true) → (l.filterMap f).length = l.length
  | [], _ => rfl
  | a :: l, hyp => by
    obtain ⟨b, hb⟩ := Option.isSome_iff_exists.1 (hyp a (List.mem_cons_self a l))
    rw [List.filterMap_cons, hb, List.length_cons, List.length_cons,
      length_filterMap_of_all_some f l (fun x hx => hyp x (List.mem_cons_of_mem a hx))]

theorem scrapePod_truthy (url : String) (p : ProductPod) (t lnk : String)
    (ht : p.title = some t) (hh : p.href = some lnk) (hlnk : lnk ≠ "")
    (htne : t ≠ "") (hpne : p.price ≠ "") :
    scrapePod url p = some (Record.book (jsTrim t) (jsTrim p.price) (resolveUrl lnk url)) := by
  have hane : resolveUrl lnk url ≠ "" := resolveUrl_ne_empty lnk url hlnk
  unfold scrapePod
  rw [ht, hh]
  simp [hlnk, htne, hpne, hane]

theorem scrapeUrl_ok_success (env : String → FetchSpec) (url : String)
    (ms st : Nat) (stx : String) (doc : Doc)
    (hspec : env url = .respondsAfter ms st stx doc)
    (hms : ms < timeoutMs) (hok : responseOk st = true) :
    scrapeUrl env url = .success url (extractRecords url doc) := by
  unfold scrapeUrl tryScrapeBody jsFetch
  rw [hspec]
  simp [hms, hok]

theorem scrapePod_missing (url : String) (p : ProductPod)
    (hm : missingFieldPod p) : scrapePod url p = none := by
  rcases hm with h | h | h | h | h
  · simp [scrapePod, h]
  · rw [scrapePod, h]
    cases hh : p.href with
    | none => simp
    | some r =>
      by_cases hr : r = ""
      · simp [hr]
      · simp [hr]
  · cases ht : p.title with
    | none => simp [scrapePod, ht]
    | some t =>
      cases hh : p.href with
      | none => simp [scrapePod, ht, hh]
      | some r =>
        by_cases hr : r = ""
        · simp [scrapePod, ht, hh, hr]
        · simp [scrapePod, h, ht, hh, hr]
  · cases ht : p.title with
    | none => simp [scrapePod, ht]
    | some t => simp [scrapePod, ht, h]
  · cases ht : p.title with
    | none => simp [scrapePod, ht]
    | some t => simp [scrapePod, ht, h]

/-! ### Claim theorems -/

/-- C1: for every non-empty input list of URL strings, the batch operation
(`POST /scrape` over `scrapeUrl` via the settled fan-out) returns a sequence
of outcomes of the same length as the input, and for every index `i` the
outcome at position `i` has its url field equal to the input URL at position
`i`, for every network environment (so including failure outcomes). -/
theorem scrapeAll_aligns_outcomes (env : String → FetchSpec) (urls : List String)
    (hne : urls ≠ []) :
    (scrapeAll env urls).length = urls.length ∧
    ∀ i, i < urls.length →
      ((scrapeAll env urls).getD i (.failure "" "")).url = urls.getD i "" := by
  rw [scrapeAll_eq_map]
  constructor
  · exact List.length_map urls _
  · intro i hi
    rw [List.getD_eq_getElem?_getD, List.getD_eq_getElem?_getD, List.getElem?_map,
      List.getElem?_eq_getElem hi]
    simp [scrapeUrl_url_eq]

theorem scrapeAll_aligns_outcomes_witness :
    (scrapeAll (fun _ => FetchSpec.never) ["http://a.example/", "http://b.example/"]).length = 2 ∧
    ((scrapeAll (fun _ => FetchSpec.never)
        ["http://a.example/", "http://b.example/"]).getD 1
      (ScrapeOutcome.failure "" "")).url = "http://b.example/" := by
  have h := scrapeAll_aligns_outcomes (fun _ => FetchSpec.never)
    ["http://a.example/", "http://b.example/"] (by decide)
  exact ⟨h.1, h.2 1 (by decide)⟩

/-- C2: for every input string url, a call to `scrapeUrl` returns exactly one
outcome object (the definition is a total function) and every failure path is
converted into a failure outcome carrying that url; both outcome shapes echo
the requested url. -/
theorem scrapeUrl_one_outcome_echoes_url (env : String → FetchSpec) (url : String) :
    (∃ records, scrapeUrl env url = .success url records) ∨
    (∃ msg, scrapeUrl env url = .failure url msg) := by
  unfold scrapeUrl
  cases h : tryScrapeBody env url with
  | ok records => exact Or.inl ⟨records, rfl⟩
  | error e => exact Or.inr ⟨catchMessage e, rfl⟩

/-- C3: for every URL whose fetch is aborted by the 15-second timeout (the
token fires before the response completes), `scrapeUrl` produces a failure
outcome whose error message is exactly the string Request timed out. -/
theorem scrapeUrl_timeout_failure (env : String → FetchSpec) (url : String)
    (h : timedOut (env url)) :
    scrapeUrl env url = .failure url "Request timed out" := by
  have hfetch : jsFetch (env url) = .error abortError := by
    rcases h with h | ⟨ms, st, stx, doc, hspec, hms⟩ | ⟨ms, e, hspec, hms⟩
    · rw [h]
      rfl
    · rw [hspec]
      simp only [jsFetch]
      rw [if_neg (Nat.not_lt.2 hms)]
    · rw [hspec]
      simp only [jsFetch]
      rw [if_neg (Nat.not_lt.2 hms)]
  unfold scrapeUrl tryScrapeBody
  rw [hfetch]
  rfl

theorem scrapeUrl_timeout_failure_witness :
    scrapeUrl (fun _ => FetchSpec.never) "https://slow.example/" =
      ScrapeOutcome.failure "https://slow.example/" "Request timed out" :=
  scrapeUrl_timeout_failure (fun _ => FetchSpec.never) "https://slow.example/" (Or.inl rfl)

/-- C4: for every URL whose fetch completes with a status outside 200–299,
`scrapeUrl` produces a failure outcome (no retry is modelled) whose error
message is exactly the fetch-failed message embedding status and status
text; the message always contains the decimal status, so a 404 response
yields a message containing 404. -/
theorem scrapeUrl_http_error_failure (env : String → FetchSpec) (url : String)
    (ms status : Nat) (statusText : String) (doc : Doc)
    (hspec : env url = .respondsAfter ms status statusText doc)
    (hms : ms < timeoutMs) (hbad : responseOk status = false) :
    scrapeUrl env url = .failure url (httpErrorMessage url status statusText) ∧
    strIncludes (httpErrorMessage url status statusText) (toString status) = true := by
  constructor
  · unfold scrapeUrl tryScrapeBody jsFetch
    rw [hspec]
    simp [hms, hbad, catchMessage]
  · have hsplit : httpErrorMessage url status statusText
        = ("Failed to fetch " ++ url ++ ": ") ++ toString status ++ (" " ++ statusText) := by
      simp [httpErrorMessage, String.append_assoc]
    rw [hsplit]
    exact strIncludes_middle _ _ _

theorem scrapeUrl_http_error_failure_witness :
    scrapeUrl (fun _ => FetchSpec.respondsAfter 120 404 "Not Found" ⟨[], none⟩)
        "http://missing.example/page" =
      ScrapeOutcome.failure "http://missing.example/page"
        "Failed to fetch http://missing.example/page: 404 Not Found" ∧
    strIncludes "Failed to fetch http://missing.example/page: 404 Not Found" "404" = true := by
  have h := scrapeUrl_http_error_failure
    (fun _ => FetchSpec.respondsAfter 120 404 "Not Found" ⟨[], none⟩)
    "http://missing.example/page" 120 404 "Not Found" ⟨[], none⟩ rfl (by decide) (by decide)
  exact ⟨h.1, h.2⟩

/-- C5: for every URL that matches no known host, the fallback policy
applies: when the trimmed text of the first top-level heading is non-empty
the outcome is success with exactly one generic record carrying that trimmed
text and the source Generic H1 scrape; when the heading is empty or absent
the outcome is success with an empty record sequence. -/
theorem scrapeUrl_generic_fallback (env : String → FetchSpec) (url : String)
    (ms st : Nat) (stx : String) (doc : Doc)
    (hnb : strIncludes url booksHost = false)
    (hspec : env url = .respondsAfter ms st stx doc)
    (hms : ms < timeoutMs) (hok : responseOk st = true) :
    (jsTrim (doc.h1.getD "") ≠ "" →
      scrapeUrl env url =
        .success url [Record.generic (jsTrim (doc.h1.getD "")) "Generic H1 scrape"]) ∧
    (jsTrim (doc.h1.getD "") = "" → scrapeUrl env url = .success url []) := by
  have hsucc := scrapeUrl_ok_success env url ms st stx doc hspec hms hok
  have hgen : extractRecords url doc = genericPolicy doc := by
    simp [extractRecords, hnb]
  constructor
  · intro hne
    rw [hsucc, hgen]
    simp [genericPolicy, hne]
  · intro heq
    rw [hsucc, hgen]
    simp [genericPolicy, heq]

theorem scrapeUrl_generic_fallback_witness :
    scrapeUrl (fun _ => FetchSpec.respondsAfter 50 200 "OK" ⟨[], some " Example Domain "⟩)
        "https://example.com/" =
      ScrapeOutcome.success "https://example.com/"
        [Record.generic "Example Domain" "Generic H1 scrape"] := by
  have h := scrapeUrl_generic_fallback
    (fun _ => FetchSpec.respondsAfter 50 200 "OK" ⟨[], some " Example Domain "⟩)
    "https://example.com/" 50 200 "OK" ⟨[], some " Example Domain "⟩
    (by decide) rfl (by decide) (by decide)
  exact h.1 (by decide)

/-- C6: for every matched-site document fetched successfully from an absolute
http(s) URL containing the books host, the outcome is success with the books
policy records; each well-formed container (title and href present, href
non-empty, title and price non-empty after trimming) yields exactly one
record with the trimmed non-empty title and price and a link resolved
against the request URL that is itself absolute; when all containers are
well-formed there is exactly one record per container; and every container
missing a required field is excluded while the outcome stays a success. -/
theorem scrapeUrl_books_extraction (env : String → FetchSpec) (url : String)
    (ms st : Nat) (stx : String) (doc : Doc)
    (hb : strIncludes url booksHost = true)
    (habs : isAbsoluteHttp url = true)
    (hspec : env url = .respondsAfter ms st stx doc)
    (hms : ms < timeoutMs) (hok : responseOk st = true) :
    scrapeUrl env url = .success url (booksPolicy url doc) ∧
    (∀ (p : ProductPod) (t lnk : String), p.title = some t → p.href = some lnk →
      lnk ≠ "" → jsTrim t ≠ "" → jsTrim p.price ≠ "" →
      scrapePod url p =
        some (Record.book (jsTrim t) (jsTrim p.price) (resolveUrl lnk url)) ∧
      isAbsoluteHttp (resolveUrl lnk url) = true) ∧
    ((∀ p ∈ doc.productPods, wellFormedPod p) →
      (booksPolicy url doc).length = doc.productPods.length) ∧
    (∀ p : ProductPod, missingFieldPod p → scrapePod url p = none) := by
  have hpoint : ∀ (p : ProductPod) (t lnk : String), p.title = some t → p.href = some lnk →
      lnk ≠ "" → jsTrim t ≠ "" → jsTrim p.price ≠ "" →
      scrapePod url p =
        some (Record.book (jsTrim t) (jsTrim p.price) (resolveUrl lnk url)) := by
    intro p t lnk ht hh hlnk htt hpp
    have htne : t ≠ "" := by
      intro hc
      apply htt
      rw [hc]
      rfl
    have hpne : p.price ≠ "" := by
      intro hc
      apply hpp
      rw [hc]
      rfl
    exact scrapePod_truthy url p t lnk ht hh hlnk htne hpne
  refine ⟨?_, ?_, ?_, ?_⟩
  · rw [scrapeUrl_ok_success env url ms st stx doc hspec hms hok]
    have hbooks : extractRecords url doc = booksPolicy url doc := by
      unfold extractRecords
      rw [if_pos hb]
    rw [hbooks]
  · intro p t lnk ht hh hlnk htt hpp
    exact ⟨hpoint p t lnk ht hh hlnk htt hpp, resolveUrl_absolute lnk url habs⟩
  · intro hall
    unfold booksPolicy
    refine length_filterMap_of_all_some (scrapePod url) doc.productPods ?_
    intro p hp
    obtain ⟨t, lnk, ht, htt, hh, hlnk, hpp⟩ := hall p hp
    rw [hpoint p t lnk ht hh hlnk htt hpp]
    rfl
  · intro p hm
    exact scrapePod_missing url p hm

theorem scrapeUrl_books_extraction_witness :
    scrapeUrl
        (fun _ => FetchSpec.respondsAfter 50 200 "OK"
          ⟨[⟨some "A Light in the Attic", some "catalogue/a.html", " £51.77 "⟩], none⟩)
        "http://books.toscrape.com/index.html" =
      ScrapeOutcome.success "http://books.toscrape.com/index.html"
        [Record.book "A Light in the Attic" "£51.77"
          "http://books.toscrape.com/catalogue/a.html"] ∧
    scrapePod "http://books.toscrape.com/index.html" ⟨some "B", some "b.html", ""⟩ = none := by
  have h := scrapeUrl_books_extraction
    (fun _ => FetchSpec.respondsAfter 50 200 "OK"
      ⟨[⟨some "A Light in the Attic", some "catalogue/a.html", " £51.77 "⟩], none⟩)
    "http://books.toscrape.com/index.html" 50 200 "OK"
    ⟨[⟨some "A Light in the Attic", some "catalogue/a.html", " £51.77 "⟩], none⟩
    (by decide) (by decide) rfl (by decide) (by decide)
  exact ⟨h.1, h.2.2.2 ⟨some "B", some "b.html", ""⟩ (Or.inr (Or.inr (Or.inl rfl)))⟩

/-- C7: for every request whose urls value is absent, not an array, or an
empty array, the boundary rejects it with an HTTP 400 response carrying the
validation message, and the core scraping operation is never invoked: the
result does not depend on the core at all. -/
theorem handleScrape_rejects_invalid_body
    (core core2 : List String → List ScrapeOutcome) (body : BodyUrls)
    (h : body = .absent ∨ body = .nonArray ∨ body = .array []) :
    handleScrape core body =
      .error { status := 400,
               error := "Please provide an array of URLs in the request body." } ∧
    handleScrape core body = handleScrape core2 body := by
  have hinv : bodyInvalid body = true := by
    rcases h with h | h | h <;> rw [h] <;> rfl
  constructor
  · unfold handleScrape
    rw [if_pos hinv]
    rfl
  · unfold handleScrape
    rw [if_pos hinv, if_pos hinv]

theorem handleScrape_rejects_invalid_body_witness :
    handleScrape (fun _ => []) BodyUrls.absent =
      Except.error { status := 400,
                     error := "Please provide an array of URLs in the request body." } ∧
    handleScrape (fun _ => []) BodyUrls.absent =
      handleScrape (fun _ => [ScrapeOutcome.failure "u" "boom"]) BodyUrls.absent :=
  handleScrape_rejects_invalid_body _ _ _ (Or.inl rfl)

/-- C8 counterexample: a stored empty string is a value the parser rejects
(the real platform throws on an empty parse input), yet the routine leaves
it in storage and shows the initial placeholder — the cell is not cleared,
refuting the claim that every missing-or-unparsable stored value ends up
cleared. -/
theorem loadStoredResults_empty_string_not_cleared :
    (loadAndDisplayStoredResults (fun _ => none) (some "")).1 ≠ none ∧
    (loadAndDisplayStoredResults (fun _ => none) (some "")).1 = some "" ∧
    (loadAndDisplayStoredResults (fun _ => none) (some "")).2 =
      Display.message emptyStateHtml := by
  decide

/-- C8 (amended): a missing or empty (falsy) stored value leaves storage
unchanged and the empty-state placeholder is shown; a non-empty stored value
that cannot be parsed is cleared and the corrupted-data message is shown; in
every such case the routine, a total function, falls back to a static
message rather than crashing or rendering results. -/
theorem loadStoredResults_fallback
    (parseJson : String → Option (List ScrapeOutcome)) (storage : Option String)
    (s : String) :
    (storage = none →
      loadAndDisplayStoredResults parseJson storage =
        (none, .message emptyStateHtml)) ∧
    (storage = some "" →
      loadAndDisplayStoredResults parseJson storage =
        (some "", .message emptyStateHtml)) ∧
    (storage = some s → s ≠ "" → parseJson s = none →
      loadAndDisplayStoredResults parseJson storage =
        (none, .message corruptedHtml)) := by
  refine ⟨?_, ?_, ?_⟩
  · intro h
    rw [h]
    rfl
  · intro h
    rw [h]
    rfl
  · intro hst hs hp
    rw [hst]
    simp [loadAndDisplayStoredResults, jsTruthy, hs, hp]

theorem loadStoredResults_fallback_witness :
    loadAndDisplayStoredResults (fun _ => none) (some "corrupted data") =
      (none, Display.message corruptedHtml) :=
  (loadStoredResults_fallback (fun _ => none) (some "corrupted data")
    "corrupted data").2.2 rfl (by decide) rfl

/-- C9: extraction-policy selection is a substring test on the entire URL
string, not a hostname match: every URL containing the books host anywhere is
routed to the books policy and every other URL to the fallback policy; in
particular a URL of a different host that merely mentions the books host in
its query passes the test although it starts with neither books-host
origin. -/
theorem extraction_policy_substring_routing (url : String) (doc : Doc) :
    (strIncludes url booksHost = true → extractRecords url doc = booksPolicy url doc) ∧
    (strIncludes url booksHost = false → extractRecords url doc = genericPolicy doc) ∧
    strIncludes "https://evil.example/?q=books.toscrape.com" booksHost = true ∧
    strStartsWith "https://evil.example/?q=books.toscrape.com"
      "http://books.toscrape.com" = false ∧
    strStartsWith "https://evil.example/?q=books.toscrape.com"
      "https://books.toscrape.com" = false := by
  refine ⟨?_, ?_, by decide, by decide, by decide⟩
  · intro h
    unfold extractRecords
    rw [if_pos h]
  · intro h
    simp [extractRecords, h]

theorem extraction_policy_substring_routing_witness :
    extractRecords "https://evil.example/?q=books.toscrape.com" ⟨[], some "T"⟩ =
      booksPolicy "https://evil.example/?q=books.toscrape.com" ⟨[], some "T"⟩ :=
  (extraction_policy_substring_routing "https://evil.example/?q=books.toscrape.com"
    ⟨[], some "T"⟩).1 (by decide)

/-- C10: the required-field check of the books branch is performed on the
untrimmed extracted values: a container whose title or price is non-empty
whitespace passes the check and a record is emitted whose corresponding
field, being trimmed afterwards, is the empty string. -/
theorem scrapePod_checks_untrimmed_fields (url : String) (p : ProductPod)
    (t lnk : String)
    (ht : p.title = some t) (hh : p.href = some lnk) (hlnk : lnk ≠ "")
    (htne : t ≠ "") (hpne : p.price ≠ "")
    (hws : jsTrim t = "" ∨ jsTrim p.price = "") :
    scrapePod url p = some (Record.book (jsTrim t) (jsTrim p.price) (resolveUrl lnk url)) :=
  scrapePod_truthy url p t lnk ht hh hlnk htne hpne

theorem scrapePod_checks_untrimmed_fields_witness :
    scrapePod "http://books.toscrape.com/" ⟨some "   ", some "x.html", "£5"⟩ =
      some (Record.book "" "£5" "http://books.toscrape.com/x.html") :=
  scrapePod_checks_untrimmed_fields "http://books.toscrape.com/"
    ⟨some "   ", some "x.html", "£5"⟩ "   " "x.html" rfl rfl (by decide) (by decide)
    (by decide) (Or.inl (by decide))

end Webscrapper
